import Mathlib

/-!
Verification of the matching and normalization core of the Homemates backend.

The TypeScript sources are embedded shallowly:

* JavaScript strings become Lean `String`; the JS truthiness test on a
  possibly-absent string field (`undefined` or `""` is falsy) becomes
  `jsTruthy` on `Option String`.
* JS `a || b` chains on string fields become `jsOr`; the trailing `|| ''`
  coercion becomes `jsStr`.
* Numeric-as-text fields that the code feeds through `parseFloat` are
  modelled as `Option ℚ`: `none` is an absent or empty (falsy) field and
  `some q` is a present text field whose numeric value is `q`; the
  `parseFloat(x) || 0` coercion becomes `Option.getD 0`.
* `String.prototype.includes` (substring test) becomes `strIncludes`,
  `split(',')`/`split('-')` become `jsSplit`, `trim` becomes `jsTrim`,
  `toLowerCase` becomes `jsToLower`.  These are implemented by structural
  recursion over the character list of the string so that every definition
  evaluates inside the kernel; they agree with the JS operations on the
  separators actually used by the code (single characters).
* `Math.round` on a nonnegative value becomes `jsRound` (floor of x + 1/2).
-/

/-- Truthiness of a possibly-absent JS string: `undefined` and `""` are falsy. -/
def jsTruthy : Option String → Bool
  | some s => !s.data.isEmpty
  | none => false

/-- JS `a || b` on possibly-absent strings: keep `a` when truthy, else `b`. -/
def jsOr (a b : Option String) : Option String :=
  if jsTruthy a then a else b

/-- Final coercion of a JS string chain ending in `|| ''`. -/
def jsStr : Option String → String
  | some s => s
  | none => ""

/-- Test whether the second character list starts with the first one. -/
def leadsWith : List Char → List Char → Bool
  | [], _ => true
  | _ :: _, [] => false
  | a :: ps, b :: ss => a == b && leadsWith ps ss

/-- Test whether the first character list occurs inside the second one. -/
def occursIn (pat s : List Char) : Bool :=
  match s with
  | [] => pat.isEmpty
  | _ :: rest => leadsWith pat s || occursIn pat rest

/-- JS `s.includes(pat)`: substring containment (an empty pattern always
matches). -/
def strIncludes (s pat : String) : Bool :=
  occursIn pat.data s.data

/-- Split a character list on a separator character. -/
def splitChars (sep : Char) : List Char → List (List Char)
  | [] => [[]]
  | c :: rest =>
    let r := splitChars sep rest
    if c == sep then [] :: r
    else
      match r with
      | [] => [[c]]
      | h :: t => (c :: h) :: t

/-- JS `s.split(sep)` for a single-character separator (the code only ever
splits on a comma or a dash). -/
def jsSplit (s : String) (sep : Char) : List String :=
  (splitChars sep s.data).map String.mk

/-- Drop leading whitespace from a character list. -/
def dropLeadingWs : List Char → List Char
  | [] => []
  | c :: rest => if c.isWhitespace then dropLeadingWs rest else c :: rest

/-- JS `s.trim()`: remove whitespace from both ends. -/
def jsTrim (s : String) : String :=
  String.mk ((dropLeadingWs (dropLeadingWs s.data).reverse).reverse)

/-- JS `s.toLowerCase()` (ASCII, as used by the code). -/
def jsToLower (s : String) : String :=
  String.mk (s.data.map Char.toLower)

/-- JS `Math.round` (round half up) on a rational. -/
def jsRound (q : ℚ) : ℤ := ⌊q + 1/2⌋

/-!
Property search: the GET /match route of src/routes/properties.ts
(lines 93-174).  The query holds the six optional constraints; a candidate
property (already mapped to the canonical shape) holds the fields the
filter reads.  Query parameters `budget_min` and `budget_max` and the
property `rent` are numeric-as-text, hence `Option ℚ` as explained above.
-/

/-- Constraint set supplied to GET /match (each field optional). -/
structure MatchQuery where
  city : Option String
  locality : Option String
  bedrooms : Option String
  budget_min : Option ℚ
  budget_max : Option ℚ
  amenities : Option String

/-- Candidate property as seen by the /match filter. -/
structure MatchProp where
  city : String
  locality : String
  bedrooms : String
  amenities : String
  rent : Option ℚ

/-- Numeric rent of a property: `parseFloat(property.rent) || 0`. -/
def rentVal (p : MatchProp) : ℚ := p.rent.getD 0

/-- City criterion body: `property.city?.toLowerCase() === city.toLowerCase()`. -/
def cityCriterion (c : String) (p : MatchProp) : Bool :=
  jsToLower p.city == jsToLower c

/-- Locality criterion body: comma-split, trimmed, lower-cased tenant
localities; satisfied when the property locality contains any of them. -/
def localityCriterion (l : String) (p : MatchProp) : Bool :=
  let propertyLocality := jsToLower p.locality
  ((jsSplit (jsToLower l) ',').map jsTrim).any
    (fun loc => strIncludes propertyLocality loc)

/-- Bedrooms criterion body: `property.bedrooms === bedrooms` (raw equality). -/
def bedroomsCriterion (b : String) (p : MatchProp) : Bool :=
  p.bedrooms == b

/-- Budget criterion body: rent within `[budget_min * 0.8, budget_max * 1.2]`,
an absent minimum giving lower bound 0 and an absent maximum giving no
upper bound (Infinity). -/
def budgetCriterion (bmin bmax : Option ℚ) (p : MatchProp) : Bool :=
  let propertyRent := rentVal p
  let minBudget : ℚ := match bmin with
    | some m => m * (8/10)
    | none => 0
  match bmax with
  | some mx => decide (minBudget ≤ propertyRent) && decide (propertyRent ≤ mx * (12/10))
  | none => decide (minBudget ≤ propertyRent)

/-- Amenities criterion body: comma-split, trimmed, lower-cased tenant
amenities; satisfied when the property amenities string contains any of
them as a substring. -/
def amenitiesCriterion (a : String) (p : MatchProp) : Bool :=
  let propertyAmenities := jsToLower p.amenities
  ((jsSplit (jsToLower a) ',').map jsTrim).any
    (fun x => strIncludes propertyAmenities x)

/-- The city constraint is supplied (`if (city)`). -/
def citySupplied (q : MatchQuery) : Bool := jsTruthy q.city

/-- The locality constraint is supplied. -/
def localitySupplied (q : MatchQuery) : Bool := jsTruthy q.locality

/-- The bedrooms constraint is supplied. -/
def bedroomsSupplied (q : MatchQuery) : Bool := jsTruthy q.bedrooms

/-- The budget constraint is supplied (`if (budget_min || budget_max)`). -/
def budgetSupplied (q : MatchQuery) : Bool :=
  q.budget_min.isSome || q.budget_max.isSome

/-- The amenities constraint is supplied. -/
def amenitiesSupplied (q : MatchQuery) : Bool := jsTruthy q.amenities

/-- Satisfaction of the city criterion for the supplied value. -/
def citySatisfied (q : MatchQuery) (p : MatchProp) : Bool :=
  match q.city with
  | some c => cityCriterion c p
  | none => false

/-- Satisfaction of the locality criterion for the supplied value. -/
def localitySatisfied (q : MatchQuery) (p : MatchProp) : Bool :=
  match q.locality with
  | some l => localityCriterion l p
  | none => false

/-- Satisfaction of the bedrooms criterion for the supplied value. -/
def bedroomsSatisfied (q : MatchQuery) (p : MatchProp) : Bool :=
  match q.bedrooms with
  | some b => bedroomsCriterion b p
  | none => false

/-- Satisfaction of the budget criterion for the supplied bounds. -/
def budgetSatisfied (q : MatchQuery) (p : MatchProp) : Bool :=
  budgetCriterion q.budget_min q.budget_max p

/-- Satisfaction of the amenities criterion for the supplied value. -/
def amenitiesSatisfied (q : MatchQuery) (p : MatchProp) : Bool :=
  match q.amenities with
  | some a => amenitiesCriterion a p
  | none => false

/-- Value of the `totalCriteria` counter after the five supplied-constraint
checks of the /match filter. -/
def totalCriteria (q : MatchQuery) : Nat :=
  (if citySupplied q then 1 else 0) +
  (if localitySupplied q then 1 else 0) +
  (if bedroomsSupplied q then 1 else 0) +
  (if budgetSupplied q then 1 else 0) +
  (if amenitiesSupplied q then 1 else 0)

/-- Value of the `matchScore` counter: one point per supplied and satisfied
criterion. -/
def matchScore (q : MatchQuery) (p : MatchProp) : Nat :=
  (if citySupplied q && citySatisfied q p then 1 else 0) +
  (if localitySupplied q && localitySatisfied q p then 1 else 0) +
  (if bedroomsSupplied q && bedroomsSatisfied q p then 1 else 0) +
  (if budgetSupplied q && budgetSatisfied q p then 1 else 0) +
  (if amenitiesSupplied q && amenitiesSatisfied q p then 1 else 0)

/-- Inclusion test of the /match filter:
`return totalCriteria === 0 || matchScore >= 1`. -/
def includeInMatch (q : MatchQuery) (p : MatchProp) : Bool :=
  decide (totalCriteria q = 0) || decide (1 ≤ matchScore q p)

/-!
Data-health analyzer (`analyzeDataHealth`): a row batch is a list of parsed
rows, each row a list of column-name/value pairs (only the column names of
the first row are inspected).
-/

/-- Result record of the data-health analyzer. -/
structure DataHealth where
  total_rows : Nat
  has_name : Bool
  has_phone : Bool
  has_email : Bool
  completeness_score : ℤ
deriving DecidableEq

/-- Name-like column keyword test on a lower-cased column name. -/
def nameKeyword (k : String) : Bool :=
  strIncludes k "name" || strIncludes k "customer" || strIncludes k "client"

/-- Phone-like column keyword test on a lower-cased column name. -/
def phoneKeyword (k : String) : Bool :=
  strIncludes k "phone" || strIncludes k "mobile" || strIncludes k "contact"

/-- Email-like column keyword test on a lower-cased column name. -/
def emailKeyword (k : String) : Bool :=
  strIncludes k "email" || strIncludes k "mail"

/-- Data-health analyzer over a batch of parsed rows. -/
def analyzeDataHealth (rows : List (List (String × String))) : DataHealth :=
  match rows with
  | [] => { total_rows := 0, has_name := false, has_phone := false,
            has_email := false, completeness_score := 0 }
  | firstRow :: _ =>
    let keys := firstRow.map (fun kv => jsToLower kv.fst)
    let hasName := keys.any nameKeyword
    let hasPhone := keys.any phoneKeyword
    let hasEmail := keys.any emailKeyword
    let flags : ℚ :=
      ((if hasName then 1 else 0) + (if hasPhone then 1 else 0) +
       (if hasEmail then 1 else 0) : ℚ)
    { total_rows := rows.length,
      has_name := hasName,
      has_phone := hasPhone,
      has_email := hasEmail,
      completeness_score := jsRound (flags / 3 * 100) }

/-!
Theorems.
-/

/-- Helper: a sum of five 0/1 indicators is at least one exactly when some
indicator is set. -/
theorem five_indicator_sum_pos (b1 b2 b3 b4 b5 : Bool) :
    1 ≤ ((if b1 then 1 else 0) + (if b2 then 1 else 0) + (if b3 then 1 else 0) +
      (if b4 then 1 else 0) + (if b5 then 1 else 0) : Nat) ↔
    (b1 = true ∨ b2 = true ∨ b3 = true ∨ b4 = true ∨ b5 = true) := by
  cases b1 <;> cases b2 <;> cases b3 <;> cases b4 <;> cases b5 <;> simp

/-- C1: a property passes the /match filter exactly when no constraint was
supplied or at least one supplied criterion is satisfied; in particular with
zero supplied constraints every candidate property is included. -/
theorem match_inclusion_iff (q : MatchQuery) (p : MatchProp) :
    (includeInMatch q p = true ↔
      (totalCriteria q = 0 ∨
        (citySupplied q && citySatisfied q p) = true ∨
        (localitySupplied q && localitySatisfied q p) = true ∨
        (bedroomsSupplied q && bedroomsSatisfied q p) = true ∨
        (budgetSupplied q && budgetSatisfied q p) = true ∨
        (amenitiesSupplied q && amenitiesSatisfied q p) = true)) ∧
    (totalCriteria q = 0 → includeInMatch q p = true) := by
  have hscore := five_indicator_sum_pos
    (citySupplied q && citySatisfied q p)
    (localitySupplied q && localitySatisfied q p)
    (bedroomsSupplied q && bedroomsSatisfied q p)
    (budgetSupplied q && budgetSatisfied q p)
    (amenitiesSupplied q && amenitiesSatisfied q p)
  constructor
  · simp only [includeInMatch, matchScore, Bool.or_eq_true, decide_eq_true_eq]
    rw [hscore]
  · intro h
    simp [includeInMatch, h]

/-- Witness for C1: with zero supplied constraints an arbitrary property is
included. -/
theorem match_inclusion_iff_witness :
    includeInMatch ⟨none, none, none, none, none, none⟩ ⟨"", "", "", "", none⟩ = true :=
  (match_inclusion_iff ⟨none, none, none, none, none, none⟩ ⟨"", "", "", "", none⟩).2 (by decide)

/-- C4: the /match budget criterion holds exactly when the numeric rent
(0 when unparsable) is at least `budget_min * 0.8` (0 when budget_min is
absent) and at most `budget_max * 1.2` whenever budget_max is present (no
upper bound otherwise); a rent strictly above `budget_max * 1.2` fails it. -/
theorem match_budget_iff (q : MatchQuery) (p : MatchProp) :
    (budgetSatisfied q p = true ↔
      ((match q.budget_min with | some m => m * (8/10) | none => 0) ≤ rentVal p ∧
       ∀ M, q.budget_max = some M → rentVal p ≤ M * (12/10))) ∧
    (∀ M, q.budget_max = some M → M * (12/10) < rentVal p →
      budgetSatisfied q p = false) := by
  constructor
  · unfold budgetSatisfied budgetCriterion
    cases q.budget_max <;> simp
  · intro M hM hlt
    unfold budgetSatisfied budgetCriterion
    rw [hM]
    simp [not_le.mpr hlt]

/-- Witness for C4: with budget range [100, 100], a rent of 120.01 (that is
`1.2 * budget_max + 0.01`) is rejected by the budget criterion. -/
theorem match_budget_iff_witness :
    budgetSatisfied ⟨none, none, none, some 100, some 100, none⟩
      ⟨"", "", "", "", some ((12001 : ℚ)/100)⟩ = false :=
  (match_budget_iff ⟨none, none, none, some 100, some 100, none⟩
      ⟨"", "", "", "", some ((12001 : ℚ)/100)⟩).2 100 rfl
    (by norm_num [rentVal, Option.getD])

/-- C9: the data-health flags are set exactly when some lower-cased column
name of the first row contains the respective keyword, the completeness
score is the flag count over three times one hundred rounded to nearest,
an empty batch yields all-false flags and score 0, the columns
Customer Name / Mobile / Email Address yield all-true flags and score 100,
and the columns id / value yield score 0. -/
theorem dataHealth_spec :
    (analyzeDataHealth [] =
      { total_rows := 0, has_name := false, has_phone := false,
        has_email := false, completeness_score := 0 }) ∧
    (∀ (r : List (String × String)) (rest : List (List (String × String))),
      (analyzeDataHealth (r :: rest)).has_name =
          (r.map (fun kv => jsToLower kv.fst)).any nameKeyword ∧
      (analyzeDataHealth (r :: rest)).has_phone =
          (r.map (fun kv => jsToLower kv.fst)).any phoneKeyword ∧
      (analyzeDataHealth (r :: rest)).has_email =
          (r.map (fun kv => jsToLower kv.fst)).any emailKeyword ∧
      (analyzeDataHealth (r :: rest)).completeness_score =
        jsRound ((((if (analyzeDataHealth (r :: rest)).has_name then 1 else 0) +
          (if (analyzeDataHealth (r :: rest)).has_phone then 1 else 0) +
          (if (analyzeDataHealth (r :: rest)).has_email then 1 else 0) : ℚ)) / 3 * 100)) ∧
    (analyzeDataHealth [[("Customer Name", "a"), ("Mobile", "b"), ("Email Address", "c")]] =
      { total_rows := 1, has_name := true, has_phone := true,
        has_email := true, completeness_score := 100 }) ∧
    ((analyzeDataHealth [[("id", "1"), ("value", "2")]]).completeness_score = 0) := by
  refine ⟨rfl, fun r rest => ⟨rfl, rfl, rfl, rfl⟩, ?_, ?_⟩
  · have hn : (List.map (fun kv => jsToLower kv.fst)
        [("Customer Name", "a"), ("Mobile", "b"), ("Email Address", "c")]).any
        nameKeyword = true := by decide
    have hp : (List.map (fun kv => jsToLower kv.fst)
        [("Customer Name", "a"), ("Mobile", "b"), ("Email Address", "c")]).any
        phoneKeyword = true := by decide
    have he : (List.map (fun kv => jsToLower kv.fst)
        [("Customer Name", "a"), ("Mobile", "b"), ("Email Address", "c")]).any
        emailKeyword = true := by decide
    simp only [analyzeDataHealth, hn, hp, he]
    norm_num [jsRound, DataHealth.mk.injEq]
  · have hn : (List.map (fun kv => jsToLower kv.fst)
        [("id", "1"), ("value", "2")]).any nameKeyword = false := by decide
    have hp : (List.map (fun kv => jsToLower kv.fst)
        [("id", "1"), ("value", "2")]).any phoneKeyword = false := by decide
    have he : (List.map (fun kv => jsToLower kv.fst)
        [("id", "1"), ("value", "2")]).any emailKeyword = false := by decide
    simp only [analyzeDataHealth, hn, hp, he]
    norm_num [jsRound]

/-!
Lead view: GET / of src/routes/leads.ts (lines 15-142).  Every tenant is
turned into a virtual lead; a property from the owner pool is a matching
property when at least one of four checks passes, and the scalar
match_score is derived from the number of matching properties.
-/

/-- Truthiness of a plain JS string field (empty is falsy). -/
def jsTruthyS (s : String) : Bool := !s.data.isEmpty

/-- Tenant fields read by the lead-view matcher.  The numeric-as-text
budget bounds are modelled as `Option ℚ` (none = absent or empty field). -/
structure LeadTenant where
  localities : String
  budget_min : Option ℚ
  budget_max : Option ℚ
  bedrooms : String
  amenities : String

/-- Property fields read by the lead-view matcher. -/
structure LeadProp where
  locality : String
  rent : Option ℚ
  bedrooms : String
  amenities : String

/-- Locality check of the lead view: both fields present and some
comma-split tenant locality is contained in the property locality or
contains it (bidirectional substring containment). -/
def leadLocalityMatch (t : LeadTenant) (p : LeadProp) : Bool :=
  jsTruthyS t.localities && jsTruthyS p.locality &&
    (let tenantLocalities := (jsSplit (jsToLower t.localities) ',').map jsTrim
     let propLocality := jsToLower p.locality
     tenantLocalities.any
       (fun loc => strIncludes propLocality loc || strIncludes loc propLocality))

/-- Budget check of the lead view: both bounds and the rent present, and the
rent within `[budget_min - range, budget_max + range]` with
`range = (budget_max - budget_min) * 0.2`. -/
def leadBudgetMatch (t : LeadTenant) (p : LeadProp) : Bool :=
  match t.budget_min, t.budget_max, p.rent with
  | some tenantMin, some tenantMax, some propRent =>
    let budgetRange := (tenantMax - tenantMin) * (2/10)
    decide (tenantMin - budgetRange ≤ propRent) &&
      decide (propRent ≤ tenantMax + budgetRange)
  | _, _, _ => false

/-- Bedrooms check of the lead view: both fields present and exactly equal
as strings. -/
def leadBedroomsMatch (t : LeadTenant) (p : LeadProp) : Bool :=
  jsTruthyS t.bedrooms && jsTruthyS p.bedrooms && t.bedrooms == p.bedrooms

/-- Amenities check of the lead view: both fields present and some
comma-split tenant amenity token is exactly equal to some comma-split
property amenity token (array membership, not substring). -/
def leadAmenitiesMatch (t : LeadTenant) (p : LeadProp) : Bool :=
  jsTruthyS t.amenities && jsTruthyS p.amenities &&
    (let tenantAmenities := (jsSplit (jsToLower t.amenities) ',').map jsTrim
     let propAmenities := (jsSplit (jsToLower p.amenities) ',').map jsTrim
     tenantAmenities.any (fun a => propAmenities.contains a))

/-- The `matches` counter of the lead-view filter: each of the four checks
contributes at most one. -/
def leadMatchCount (t : LeadTenant) (p : LeadProp) : Nat :=
  (if leadLocalityMatch t p then 1 else 0) +
  (if leadBudgetMatch t p then 1 else 0) +
  (if leadBedroomsMatch t p then 1 else 0) +
  (if leadAmenitiesMatch t p then 1 else 0)

/-- The lead-view filter predicate: `return matches > 0`. -/
def isMatchingProperty (t : LeadTenant) (p : LeadProp) : Bool :=
  decide (0 < leadMatchCount t p)

/-- The matching properties of a tenant against the owner property pool. -/
def matchingProperties (t : LeadTenant) (props : List LeadProp) : List LeadProp :=
  props.filter (isMatchingProperty t)

/-- Scalar match score of a tenant lead:
`matchingProperties.length > 0 ? Math.min(0.9, 0.5 + length * 0.1) : 0.3`. -/
def tenantMatchScore (t : LeadTenant) (props : List LeadProp) : ℚ :=
  if 0 < (matchingProperties t props).length then
    min (9/10) (5/10 + ((matchingProperties t props).length : ℚ) * (1/10))
  else 3/10

/-- Helper: a sum of four 0/1 indicators is positive exactly when some
indicator is set. -/
theorem four_indicator_sum_pos (b1 b2 b3 b4 : Bool) :
    0 < ((if b1 then 1 else 0) + (if b2 then 1 else 0) + (if b3 then 1 else 0) +
      (if b4 then 1 else 0) : Nat) ↔
    (b1 = true ∨ b2 = true ∨ b3 = true ∨ b4 = true) := by
  cases b1 <;> cases b2 <;> cases b3 <;> cases b4 <;> simp

/-- C3: a property is a matching property of the lead view exactly when at
least one of the four checks (bidirectional locality containment, budget
band around the tenant range, exact bedrooms string equality, exact
amenity token equality) passes; moreover amenity matching is by exact
token, not substring: the tenant amenity gym does not lead-match a
property with amenities gymnasium/pool, although the substring-based
search-route criterion accepts the same pair. -/
theorem lead_matching_iff (t : LeadTenant) (p : LeadProp) :
    (isMatchingProperty t p = true ↔
      (leadLocalityMatch t p = true ∨ leadBudgetMatch t p = true ∨
       leadBedroomsMatch t p = true ∨ leadAmenitiesMatch t p = true)) ∧
    leadAmenitiesMatch ⟨"", none, none, "", "gym"⟩ ⟨"", none, "", "gymnasium, pool"⟩ = false ∧
    amenitiesCriterion "gym" ⟨"", "", "", "gymnasium, pool", none⟩ = true := by
  refine ⟨?_, by decide, by decide⟩
  simp only [isMatchingProperty, leadMatchCount, decide_eq_true_eq]
  exact four_indicator_sum_pos _ _ _ _

/-- C2: the tenant lead score is 0.3 with zero matching properties and
`min(0.9, 0.5 + 0.1 * n)` with `n >= 1` matching properties; one matching
property gives exactly 0.6 and four or more give exactly 0.9. -/
theorem tenant_score_formula (t : LeadTenant) (props : List LeadProp) :
    ((matchingProperties t props).length = 0 → tenantMatchScore t props = 3/10) ∧
    (1 ≤ (matchingProperties t props).length →
      tenantMatchScore t props =
        min (9/10) (5/10 + ((matchingProperties t props).length : ℚ) * (1/10))) ∧
    ((matchingProperties t props).length = 1 → tenantMatchScore t props = 6/10) ∧
    (4 ≤ (matchingProperties t props).length → tenantMatchScore t props = 9/10) := by
  refine ⟨?_, ?_, ?_, ?_⟩
  · intro h
    simp [tenantMatchScore, h]
  · intro h
    unfold tenantMatchScore
    rw [if_pos (by omega)]
  · intro h
    unfold tenantMatchScore
    rw [h]
    norm_num [min_def]
  · intro h
    have hc : (4 : ℚ) ≤ ((matchingProperties t props).length : ℚ) := by
      exact_mod_cast h
    unfold tenantMatchScore
    rw [if_pos (by omega), min_eq_left (by linarith)]

/-- Witness for C2: a tenant with no matching property scores 0.3, and a
tenant whose bedrooms match exactly one pool property scores 0.6. -/
theorem tenant_score_formula_witness :
    tenantMatchScore ⟨"", none, none, "", ""⟩ [] = 3/10 ∧
    tenantMatchScore ⟨"a", none, none, "2", ""⟩ [⟨"a", none, "2", ""⟩] = 6/10 :=
  ⟨(tenant_score_formula ⟨"", none, none, "", ""⟩ []).1 (by decide),
   (tenant_score_formula ⟨"a", none, none, "2", ""⟩ [⟨"a", none, "2", ""⟩]).2.2.1 (by decide)⟩

/-!
CSV storage (src/config/csvStorage.ts): raw rows are string-keyed maps; a
row is modelled as a record of optional string fields (`none` = column
absent).  The canonical schema fields come first, the legacy column names
(Name, Mobile, Locality, Budget, BHKtype, ...) after them.  The fresh
identifier and timestamp that the JS code derives from `Date.now()`,
`Math.random()` and `new Date()` are passed in as explicit parameters.
-/

/-- Remove the first occurrence of a pattern from a character list
(JS `s.replace(pat, '')` with a string pattern replaces only the first
occurrence). -/
def removeFirstOcc (pat : List Char) : List Char → List Char
  | [] => []
  | c :: rest =>
    if leadsWith pat (c :: rest) then (c :: rest).drop pat.length
    else c :: removeFirstOcc pat rest

/-- JS `s.replace(pat, '')` for a string pattern: drop the first occurrence. -/
def jsReplaceFirst (s pat : String) : String :=
  String.mk (removeFirstOcc pat.data s.data)

/-- JS `data['BHKtype']?.replace(' BHK', '')?.replace('BHK', '')`. -/
def bhkStrip (o : Option String) : Option String :=
  o.map (fun s => jsReplaceFirst (jsReplaceFirst s " BHK") "BHK")

/-- JS `data['Budget']?.split('-')[i]?.trim()`. -/
def budgetPart (o : Option String) (i : Nat) : Option String :=
  o.bind (fun s => ((jsSplit s '-').get? i).map jsTrim)

/-- Raw tenants.csv row: canonical fields plus the legacy column names. -/
structure TenantRow where
  tenant_id : Option String := none
  name : Option String := none
  phone : Option String := none
  whatsapp_number : Option String := none
  email : Option String := none
  city : Option String := none
  localities : Option String := none
  budget_min : Option String := none
  budget_max : Option String := none
  move_in_date : Option String := none
  bedrooms : Option String := none
  amenities : Option String := none
  preferences : Option String := none
  source : Option String := none
  consent_timestamp : Option String := none
  consent_scope : Option String := none
  created_at : Option String := none
  updated_at : Option String := none
  legacyName : Option String := none
  legacyMobile : Option String := none
  legacyLocality : Option String := none
  legacyBudget : Option String := none
  legacyBHKtype : Option String := none
  legacyMustAmenities : Option String := none
  legacyOthers : Option String := none
deriving DecidableEq

/-- Fresh values generated inside `mapTenantsToTenant`: the synthesized
tenant id and the current ISO timestamp. -/
structure TenantFresh where
  genId : String
  nowIso : String

/-- Normalizer for tenants.csv rows (`mapTenantsToTenant`): a row that
already carries a truthy `tenant_id` is returned unchanged, otherwise the
canonical fields are populated from the legacy columns. -/
def mapTenantsToTenant (f : TenantFresh) (data : TenantRow) : TenantRow :=
  if jsTruthy data.tenant_id then data
  else
    { tenant_id := some (jsStr (jsOr data.tenant_id (some f.genId))),
      name := some (jsStr (jsOr data.name data.legacyName)),
      phone := some (jsStr (jsOr data.phone data.legacyMobile)),
      whatsapp_number :=
        some (jsStr (jsOr data.whatsapp_number (jsOr data.phone data.legacyMobile))),
      email := some (jsStr data.email),
      city := some (jsStr (jsOr data.city (some "Hyderabad"))),
      localities := some (jsStr (jsOr data.localities data.legacyLocality)),
      budget_min := some (jsStr (jsOr data.budget_min (budgetPart data.legacyBudget 0))),
      budget_max :=
        some (jsStr (jsOr data.budget_max
          (jsOr (budgetPart data.legacyBudget 1) data.legacyBudget))),
      move_in_date := some (jsStr data.move_in_date),
      bedrooms := some (jsStr (jsOr data.bedrooms (bhkStrip data.legacyBHKtype))),
      amenities := some (jsStr (jsOr data.amenities data.legacyMustAmenities)),
      preferences := some (jsStr (jsOr data.preferences data.legacyOthers)),
      source := some (jsStr (jsOr data.source (some "call"))),
      consent_timestamp := some (jsStr (jsOr data.consent_timestamp (some f.nowIso))),
      consent_scope := some (jsStr (jsOr data.consent_scope (some "contact"))),
      created_at := some (jsStr (jsOr data.created_at (some f.nowIso))),
      updated_at := some (jsStr (jsOr data.updated_at (some f.nowIso))),
      legacyName := none, legacyMobile := none, legacyLocality := none,
      legacyBudget := none, legacyBHKtype := none, legacyMustAmenities := none,
      legacyOthers := none }

/-- Raw flats.csv row: canonical fields plus the legacy column names. -/
structure PropRow where
  property_id : Option String := none
  property_code : Option String := none
  title : Option String := none
  address : Option String := none
  city : Option String := none
  locality : Option String := none
  rent : Option String := none
  available_from : Option String := none
  bedrooms : Option String := none
  bathrooms : Option String := none
  area_sqft : Option String := none
  amenities : Option String := none
  furnishing : Option String := none
  status : Option String := none
  owner_id : Option String := none
  owner_name : Option String := none
  owner_phone : Option String := none
  description : Option String := none
  photos : Option String := none
  created_at : Option String := none
  updated_at : Option String := none
  legacyCode : Option String := none
  legacyName : Option String := none
  legacyLocality : Option String := none
  legacyBudget : Option String := none
  legacyPrice : Option String := none
  legacyBHKtype : Option String := none
  legacySFT : Option String := none
  legacyAmenities : Option String := none
  legacyMobile : Option String := none
deriving DecidableEq

/-- Fresh values generated inside `mapFlatsToProperty`: synthesized id and
code, the current date and the current ISO timestamp. -/
structure PropFresh where
  genId : String
  genCode : String
  today : String
  nowIso : String

/-- Normalizer for flats.csv rows (`mapFlatsToProperty`): a row that
already carries a truthy `property_code` or `property_id` is returned
unchanged, otherwise the canonical fields are populated from the legacy
columns. -/
def mapFlatsToProperty (f : PropFresh) (data : PropRow) : PropRow :=
  if jsTruthy data.property_code || jsTruthy data.property_id then data
  else
    { property_id := some (jsStr (jsOr data.property_id (some f.genId))),
      property_code :=
        some (jsStr (jsOr data.property_code (jsOr data.legacyCode (some f.genCode)))),
      title := some (jsStr (jsOr data.title data.legacyName)),
      address := some (jsStr data.address),
      city := some (jsStr (jsOr data.city (some "Hyderabad"))),
      locality := some (jsStr (jsOr data.locality data.legacyLocality)),
      rent := some (jsStr (jsOr data.rent (jsOr data.legacyBudget data.legacyPrice))),
      available_from := some (jsStr (jsOr data.available_from (some f.today))),
      bedrooms := some (jsStr (jsOr data.bedrooms (bhkStrip data.legacyBHKtype))),
      bathrooms := some (jsStr data.bathrooms),
      area_sqft := some (jsStr (jsOr data.area_sqft data.legacySFT)),
      amenities := some (jsStr (jsOr data.amenities data.legacyAmenities)),
      furnishing := some (jsStr data.furnishing),
      status := some (jsStr (jsOr data.status (some "available"))),
      owner_id := some (jsStr data.owner_id),
      owner_name := some (jsStr data.owner_name),
      owner_phone := some (jsStr (jsOr data.owner_phone data.legacyMobile)),
      description := some (jsStr data.description),
      photos := some (jsStr data.photos),
      created_at := some (jsStr (jsOr data.created_at (some f.nowIso))),
      updated_at := some (jsStr (jsOr data.updated_at (some f.nowIso))),
      legacyCode := none, legacyName := none, legacyLocality := none,
      legacyBudget := none, legacyPrice := none, legacyBHKtype := none,
      legacySFT := none, legacyAmenities := none, legacyMobile := none }

/-- C8: rows that already carry the canonical identifier (tenant_id for
tenants, property_id or property_code for properties) pass through both
normalizers unchanged. -/
theorem normalizer_identity_passthrough :
    (∀ (f : TenantFresh) (row : TenantRow), jsTruthy row.tenant_id = true →
      mapTenantsToTenant f row = row) ∧
    (∀ (f : PropFresh) (row : PropRow),
      (jsTruthy row.property_code || jsTruthy row.property_id) = true →
      mapFlatsToProperty f row = row) := by
  constructor
  · intro f row h
    simp [mapTenantsToTenant, h]
  · intro f row h
    simp [mapFlatsToProperty, h]

/-- Witness for C8: a concrete canonical tenant row and a concrete
canonical property row are returned unchanged. -/
theorem normalizer_identity_passthrough_witness :
    mapTenantsToTenant ⟨"g", "n"⟩ { tenant_id := some "t1", legacyBudget := some "9-9" } =
      { tenant_id := some "t1", legacyBudget := some "9-9" } ∧
    mapFlatsToProperty ⟨"gi", "gc", "td", "n"⟩ { property_code := some "PC" } =
      { property_code := some "PC" } :=
  ⟨normalizer_identity_passthrough.1 ⟨"g", "n"⟩
      { tenant_id := some "t1", legacyBudget := some "9-9" } (by decide),
   normalizer_identity_passthrough.2 ⟨"gi", "gc", "td", "n"⟩
      { property_code := some "PC" } (by decide)⟩

/-- C5 counterexample: a legacy row whose combined Budget column has no
dash yields budget_min equal to the whole value, not the empty string the
claim asserts. -/
theorem budget_split_counterexample :
    (mapTenantsToTenant ⟨"gen", "now"⟩ { legacyBudget := some "18000" }).budget_min ≠
        some "" ∧
    (mapTenantsToTenant ⟨"gen", "now"⟩ { legacyBudget := some "18000" }).budget_min =
        some "18000" := by
  constructor <;> decide

/-- C5 amended: splitting Budget on the dash gives budget_min from the left
part and budget_max from the right part, while a dash-free Budget value
becomes both budget_min and budget_max. -/
theorem budget_split_amended :
    (mapTenantsToTenant ⟨"gen", "now"⟩ { legacyBudget := some "15000-20000" }).budget_min =
        some "15000" ∧
    (mapTenantsToTenant ⟨"gen", "now"⟩ { legacyBudget := some "15000-20000" }).budget_max =
        some "20000" ∧
    (mapTenantsToTenant ⟨"gen", "now"⟩ { legacyBudget := some "18000" }).budget_min =
        some "18000" ∧
    (mapTenantsToTenant ⟨"gen", "now"⟩ { legacyBudget := some "18000" }).budget_max =
        some "18000" := by
  refine ⟨by decide, by decide, by decide, by decide⟩

/-!
Phone-based tenant lookups (src/config/csvStorage.ts): `getTenantByPhone`
(lines 285-305) and the phone filter of `getTenants` (lines 264-270).
Both operate on the rows after `mapTenantsToTenant`; the per-row fresh
values are supplied as a function of the row index.
-/

/-- JS `s.replace(/[\s\+\-\(\)]/g, '')`: strip space, plus, dash and
parentheses. -/
def stripPhone (s : String) : String :=
  String.mk (s.data.filter
    (fun c => !(c == ' ' || c == '+' || c == '-' || c == '(' || c == ')')))

/-- Drop one leading zero (`if (p.startsWith('0')) p = p.substring(1)`). -/
def dropLeadZero (s : String) : String :=
  match s.data with
  | '0' :: rest => String.mk rest
  | _ => s

/-- Canonical phone comparison key: strip punctuation, then drop one
leading zero. -/
def phoneCanonical (s : String) : String :=
  dropLeadZero (stripPhone s)

/-- Map a list with the element index (used to give every row its own
fresh generated values). -/
def mapWithIdx {α β : Type} (f : Nat → α → β) : Nat → List α → List β
  | _, [] => []
  | i, a :: rest => f i a :: mapWithIdx f (i + 1) rest

/-- Tenant rows after `rows.map(mapTenantsToTenant)`. -/
def mappedTenants (fr : Nat → TenantFresh) (rows : List TenantRow) : List TenantRow :=
  mapWithIdx (fun i r => mapTenantsToTenant (fr i) r) 0 rows

/-- Property rows after `rows.map(mapFlatsToProperty)`. -/
def mappedProps (fr : Nat → PropFresh) (rows : List PropRow) : List PropRow :=
  mapWithIdx (fun i r => mapFlatsToProperty (fr i) r) 0 rows

/-- Lookup of `getTenantByPhone`: normalize the query (strip punctuation,
drop one leading zero), then find the first mapped tenant whose normalized
phone or whatsapp number equals the normalized query, or equals the raw
query. -/
def getTenantByPhone (fr : Nat → TenantFresh) (phone : String)
    (rows : List TenantRow) : Option TenantRow :=
  let mapped := mappedTenants fr rows
  let normalizedPhone := dropLeadZero (stripPhone phone)
  mapped.find? (fun t =>
    let tPhone := dropLeadZero (stripPhone (jsStr t.phone))
    let tWhatsapp := dropLeadZero (stripPhone (jsStr t.whatsapp_number))
    tPhone == normalizedPhone || tWhatsapp == normalizedPhone ||
      tPhone == phone || tWhatsapp == phone)

/-- Phone filter of `getTenants`: keep the mapped tenants whose stripped
phone or whatsapp number equals the stripped query (no leading-zero
handling here). -/
def getTenantsByPhone (fr : Nat → TenantFresh) (phone : String)
    (rows : List TenantRow) : List TenantRow :=
  (mappedTenants fr rows).filter (fun t =>
    stripPhone (jsStr t.phone) == stripPhone phone ||
      stripPhone (jsStr t.whatsapp_number) == stripPhone phone)

/-- C6 counterexample: the getTenants phone filter misses a stored
leading-zero variant of the queried number, and getTenantByPhone misses a
tenant whose raw stored phone equals the stripped form of the query (the
code compares the stored stripped form against the raw query, not the
other way around), although the claim asserts both lookups succeed. -/
theorem phone_identity_counterexample :
    getTenantsByPhone (fun _ => ⟨"gen", "now"⟩) "7095288950"
        [{ tenant_id := some "tA", phone := some "07095288950",
           whatsapp_number := some "07095288950" }] = [] ∧
    getTenantByPhone (fun _ => ⟨"gen", "now"⟩) "00123"
        [{ tenant_id := some "tB", phone := some "0123",
           whatsapp_number := some "0123" }] = none ∧
    phoneCanonical "00123" = "0123" := by
  refine ⟨by decide, by decide, by decide⟩

/-- C6 amended: getTenantByPhone finds exactly the first mapped tenant
whose canonical phone or whatsapp key equals the canonical query key or
whose canonical key equals the raw query (the converse raw-stored versus
stripped-query comparison is not performed); the getTenants phone filter
only strips punctuation, without dropping a leading zero; and a tenant
whose canonical phone or whatsapp key equals the canonical query key is
always found by getTenantByPhone. -/
theorem phone_identity_amended (fr : Nat → TenantFresh) (q : String)
    (rows : List TenantRow) :
    (getTenantByPhone fr q rows =
      (mappedTenants fr rows).find? (fun t =>
        phoneCanonical (jsStr t.phone) == phoneCanonical q ||
        phoneCanonical (jsStr t.whatsapp_number) == phoneCanonical q ||
        phoneCanonical (jsStr t.phone) == q ||
        phoneCanonical (jsStr t.whatsapp_number) == q)) ∧
    (getTenantsByPhone fr q rows =
      (mappedTenants fr rows).filter (fun t =>
        stripPhone (jsStr t.phone) == stripPhone q ||
        stripPhone (jsStr t.whatsapp_number) == stripPhone q)) ∧
    (∀ t, t ∈ mappedTenants fr rows →
      (phoneCanonical (jsStr t.phone) = phoneCanonical q ∨
       phoneCanonical (jsStr t.whatsapp_number) = phoneCanonical q) →
      (getTenantByPhone fr q rows).isSome = true) := by
  refine ⟨rfl, rfl, ?_⟩
  intro t ht hc
  have hfind : getTenantByPhone fr q rows =
      (mappedTenants fr rows).find? (fun t =>
        phoneCanonical (jsStr t.phone) == phoneCanonical q ||
        phoneCanonical (jsStr t.whatsapp_number) == phoneCanonical q ||
        phoneCanonical (jsStr t.phone) == q ||
        phoneCanonical (jsStr t.whatsapp_number) == q) := rfl
  rw [hfind, List.find?_isSome]
  refine ⟨t, ht, ?_⟩
  rcases hc with h | h <;> simp [h]

/-- Witness for C6 amended: a tenant stored as 07095288950 is found by the
query 7095288950, whose canonical key agrees. -/
theorem phone_identity_amended_witness :
    (getTenantByPhone (fun _ => ⟨"gen", "now"⟩) "7095288950"
      [{ tenant_id := some "tA", phone := some "07095288950",
         whatsapp_number := some "07095288950" }]).isSome = true :=
  (phone_identity_amended (fun _ => ⟨"gen", "now"⟩) "7095288950"
      [{ tenant_id := some "tA", phone := some "07095288950",
         whatsapp_number := some "07095288950" }]).2.2
    { tenant_id := some "tA", phone := some "07095288950",
      whatsapp_number := some "07095288950" }
    (by decide) (Or.inl (by decide))

/-- C7 counterexample: a tenant stored under the form with the country
code, +91 7095288950, is not found by the query 7095288950, and a tenant
stored as 07095288950 is not found by the query +91 7095288950. -/
theorem phone_forms_counterexample :
    getTenantByPhone (fun _ => ⟨"gen", "now"⟩) "7095288950"
        [{ tenant_id := some "tC", phone := some "+91 7095288950",
           whatsapp_number := some "+91 7095288950" }] = none ∧
    getTenantByPhone (fun _ => ⟨"gen", "now"⟩) "+91 7095288950"
        [{ tenant_id := some "tD", phone := some "07095288950",
           whatsapp_number := some "07095288950" }] = none := by
  refine ⟨by decide, by decide⟩

/-- C7 amended: the forms 07095288950 and 7095288950 mutually resolve to
the stored tenant (and each form resolves to itself), while the form
+91 7095288950 resolves only to a tenant stored with the 91 prefix. -/
theorem phone_forms_amended :
    getTenantByPhone (fun _ => ⟨"gen", "now"⟩) "7095288950"
        [{ tenant_id := some "tD", phone := some "07095288950",
           whatsapp_number := some "07095288950" }] =
      some { tenant_id := some "tD", phone := some "07095288950",
             whatsapp_number := some "07095288950" } ∧
    getTenantByPhone (fun _ => ⟨"gen", "now"⟩) "07095288950"
        [{ tenant_id := some "tE", phone := some "7095288950",
           whatsapp_number := some "7095288950" }] =
      some { tenant_id := some "tE", phone := some "7095288950",
             whatsapp_number := some "7095288950" } ∧
    getTenantByPhone (fun _ => ⟨"gen", "now"⟩) "07095288950"
        [{ tenant_id := some "tD", phone := some "07095288950",
           whatsapp_number := some "07095288950" }] =
      some { tenant_id := some "tD", phone := some "07095288950",
             whatsapp_number := some "07095288950" } ∧
    getTenantByPhone (fun _ => ⟨"gen", "now"⟩) "+91 7095288950"
        [{ tenant_id := some "tF", phone := some "+91 7095288950",
           whatsapp_number := some "+91 7095288950" }] =
      some { tenant_id := some "tF", phone := some "+91 7095288950",
             whatsapp_number := some "+91 7095288950" } := by
  refine ⟨by decide, by decide, by decide, by decide⟩

/-!
In-place update (src/config/csvStorage.ts): `updateProperty` (lines
220-241) and `updateTenant` (lines 345-366).  Both locate the record in
the mapped row list, write back the list with the located row replaced by
the JS-spread merge of the mapped row, the updates and a fresh
updated_at — and then return the row at the same index of the ORIGINAL
unmapped array, i.e. the raw pre-update row.  The result pair is
(written list, returned record).
-/

/-- JS spread merge of two tenant rows with a fresh updated_at:
`{ ...old, ...updates, updated_at: now }` (a key present in the updates
overwrites the old value). -/
def spreadTenant (old upd : TenantRow) (now : String) : TenantRow :=
  { tenant_id := upd.tenant_id <|> old.tenant_id,
    name := upd.name <|> old.name,
    phone := upd.phone <|> old.phone,
    whatsapp_number := upd.whatsapp_number <|> old.whatsapp_number,
    email := upd.email <|> old.email,
    city := upd.city <|> old.city,
    localities := upd.localities <|> old.localities,
    budget_min := upd.budget_min <|> old.budget_min,
    budget_max := upd.budget_max <|> old.budget_max,
    move_in_date := upd.move_in_date <|> old.move_in_date,
    bedrooms := upd.bedrooms <|> old.bedrooms,
    amenities := upd.amenities <|> old.amenities,
    preferences := upd.preferences <|> old.preferences,
    source := upd.source <|> old.source,
    consent_timestamp := upd.consent_timestamp <|> old.consent_timestamp,
    consent_scope := upd.consent_scope <|> old.consent_scope,
    created_at := upd.created_at <|> old.created_at,
    updated_at := some now,
    legacyName := upd.legacyName <|> old.legacyName,
    legacyMobile := upd.legacyMobile <|> old.legacyMobile,
    legacyLocality := upd.legacyLocality <|> old.legacyLocality,
    legacyBudget := upd.legacyBudget <|> old.legacyBudget,
    legacyBHKtype := upd.legacyBHKtype <|> old.legacyBHKtype,
    legacyMustAmenities := upd.legacyMustAmenities <|> old.legacyMustAmenities,
    legacyOthers := upd.legacyOthers <|> old.legacyOthers }

/-- JS spread merge of two property rows with a fresh updated_at. -/
def spreadProp (old upd : PropRow) (now : String) : PropRow :=
  { property_id := upd.property_id <|> old.property_id,
    property_code := upd.property_code <|> old.property_code,
    title := upd.title <|> old.title,
    address := upd.address <|> old.address,
    city := upd.city <|> old.city,
    locality := upd.locality <|> old.locality,
    rent := upd.rent <|> old.rent,
    available_from := upd.available_from <|> old.available_from,
    bedrooms := upd.bedrooms <|> old.bedrooms,
    bathrooms := upd.bathrooms <|> old.bathrooms,
    area_sqft := upd.area_sqft <|> old.area_sqft,
    amenities := upd.amenities <|> old.amenities,
    furnishing := upd.furnishing <|> old.furnishing,
    status := upd.status <|> old.status,
    owner_id := upd.owner_id <|> old.owner_id,
    owner_name := upd.owner_name <|> old.owner_name,
    owner_phone := upd.owner_phone <|> old.owner_phone,
    description := upd.description <|> old.description,
    photos := upd.photos <|> old.photos,
    created_at := upd.created_at <|> old.created_at,
    updated_at := some now,
    legacyCode := upd.legacyCode <|> old.legacyCode,
    legacyName := upd.legacyName <|> old.legacyName,
    legacyLocality := upd.legacyLocality <|> old.legacyLocality,
    legacyBudget := upd.legacyBudget <|> old.legacyBudget,
    legacyPrice := upd.legacyPrice <|> old.legacyPrice,
    legacyBHKtype := upd.legacyBHKtype <|> old.legacyBHKtype,
    legacySFT := upd.legacySFT <|> old.legacySFT,
    legacyAmenities := upd.legacyAmenities <|> old.legacyAmenities,
    legacyMobile := upd.legacyMobile <|> old.legacyMobile }

/-- Update of a tenant record: locate the tenant in the mapped rows, write
back the list with the merged record at that index, return the raw
pre-update row at the same index (the index produced by findIndex is
always in range, so the fallback branch is unreachable). -/
def updateTenant (fr : Nat → TenantFresh) (now tenantId : String)
    (upd : TenantRow) (rows : List TenantRow) :
    Option (List TenantRow × TenantRow) :=
  match (mappedTenants fr rows).findIdx? (fun t => t.tenant_id == some tenantId) with
  | none => none
  | some i =>
    match (mappedTenants fr rows).get? i, rows.get? i with
    | some mt, some raw =>
      some ((mappedTenants fr rows).set i (spreadTenant mt upd now), raw)
    | _, _ => none

/-- Update of a property record, in the same shape as `updateTenant`. -/
def updateProperty (fr : Nat → PropFresh) (now propertyId : String)
    (upd : PropRow) (rows : List PropRow) :
    Option (List PropRow × PropRow) :=
  match (mappedProps fr rows).findIdx? (fun p => p.property_id == some propertyId) with
  | none => none
  | some i =>
    match (mappedProps fr rows).get? i, rows.get? i with
    | some mp, some raw =>
      some ((mappedProps fr rows).set i (spreadProp mp upd now), raw)
    | _, _ => none

/-- C10: when the record is found at index i, updateTenant and
updateProperty write back the mapped list with the JS-spread merge
(existing fields overlaid by the updates, fresh updated_at) at index i,
while the record returned to the caller is the raw pre-update row at
index i of the original array. -/
theorem update_returns_stale_row
    (frT : Nat → TenantFresh) (frP : Nat → PropFresh)
    (nowT nowP tid pid : String) (updT : TenantRow) (updP : PropRow)
    (tRows : List TenantRow) (pRows : List PropRow) (i j : Nat)
    (mt rawT : TenantRow) (mp rawP : PropRow)
    (hiT : (mappedTenants frT tRows).findIdx? (fun t => t.tenant_id == some tid) = some i)
    (hmT : (mappedTenants frT tRows).get? i = some mt)
    (hrT : tRows.get? i = some rawT)
    (hiP : (mappedProps frP pRows).findIdx? (fun p => p.property_id == some pid) = some j)
    (hmP : (mappedProps frP pRows).get? j = some mp)
    (hrP : pRows.get? j = some rawP) :
    updateTenant frT nowT tid updT tRows =
      some ((mappedTenants frT tRows).set i (spreadTenant mt updT nowT), rawT) ∧
    (spreadTenant mt updT nowT).updated_at = some nowT ∧
    updateProperty frP nowP pid updP pRows =
      some ((mappedProps frP pRows).set j (spreadProp mp updP nowP), rawP) ∧
    (spreadProp mp updP nowP).updated_at = some nowP := by
  refine ⟨?_, rfl, ?_, rfl⟩
  · simp only [updateTenant, hiT, hmT, hrT]
  · simp only [updateProperty, hiP, hmP, hrP]

/-- Example tenant row stored before an update. -/
def exTenantRow : TenantRow := { tenant_id := some "t1", name := some "old" }

/-- Example tenant update mapping. -/
def exTenantUpd : TenantRow := { name := some "new" }

/-- Example property row stored before an update. -/
def exPropRow : PropRow := { property_id := some "p1", title := some "oldT" }

/-- Example property update mapping. -/
def exPropUpd : PropRow := { title := some "newT" }

/-- Example fresh-value source for tenant rows. -/
def exFreshT : Nat → TenantFresh := fun _ => ⟨"g", "n"⟩

/-- Example fresh-value source for property rows. -/
def exFreshP : Nat → PropFresh := fun _ => ⟨"gi", "gc", "td", "n"⟩

/-- Witness for C10: on concrete single-row stores, the written record
carries the updated name and title, while the returned record still
carries the old ones. -/
theorem update_returns_stale_row_witness :
    updateTenant exFreshT "N" "t1" exTenantUpd [exTenantRow] =
      some ((mappedTenants exFreshT [exTenantRow]).set 0
        (spreadTenant exTenantRow exTenantUpd "N"), exTenantRow) ∧
    (spreadTenant exTenantRow exTenantUpd "N").name = some "new" ∧
    exTenantRow.name = some "old" ∧
    updateProperty exFreshP "M" "p1" exPropUpd [exPropRow] =
      some ((mappedProps exFreshP [exPropRow]).set 0
        (spreadProp exPropRow exPropUpd "M"), exPropRow) ∧
    (spreadProp exPropRow exPropUpd "M").title = some "newT" ∧
    exPropRow.title = some "oldT" := by
  have h := update_returns_stale_row exFreshT exFreshP "N" "M" "t1" "p1"
    exTenantUpd exPropUpd [exTenantRow] [exPropRow] 0 0
    exTenantRow exTenantRow exPropRow exPropRow
    (by decide) (by decide) (by decide) (by decide) (by decide) (by decide)
  exact ⟨h.1, by decide, by decide, h.2.2.1, by decide, by decide⟩
